import Mathlib

/-!
# Verification of the ghoti-sdk-go-v1 asynchronous client

Shallow embedding of the canonical asynchronous multiplexed client
(`Client` in the `ghoti` package together with `model.GhotiError`).

Modelling conventions:

* Go strings are modelled as Lean `String`; the protocol is ASCII and
  newline-framed, so Go byte indexing (`message[1:4]`, `message[4:]`)
  coincides with `List Char` indexing on `String.data`.  `len` of a Go
  string counts UTF-8 bytes, modelled by `goLen`.
* Go errors are modelled by the inductive `GoError`: one constructor for
  values produced by `fmt.Errorf` (carrying the formatted message) and one
  for the structured `*model.GhotiError` (carrying code and message).
  Distinct constructors / distinct messages mirror the fact that the Go
  values are distinguishable by type assertion / message.
* The mutable client (`Client` struct) is modelled by `ClientState`.
  Channel sends to a pending request's channel are recorded in the ghost
  field `deliveries`; `fmt.Printf` output is recorded in `logs`; calls to
  the broadcast handler in `broadcastCalls`.
* `close(c.done)` is modelled by setting `doneClosed`; `c.conn.Close()`
  by setting `connClosed`.  `handleFatalError` invokes `c.Close()` from
  the listener goroutine itself: `close(c.done)` executes, but the
  subsequent `c.wg.Wait()` waits for the very goroutine that is blocked
  inside this call (its deferred `wg.Done()` only runs when `listen`
  returns), so `c.conn.Close()` is unreachable on that path.  The model
  therefore sets only `doneClosed` in `handleFatalError`, while a `Close`
  called from a caller thread that has completed sets both flags.
* Each blocking operation (`Read`, `Write`, `Broadcast`) is a pure
  function of the client state plus an `OpEnv` describing the external
  events of that call: whether `conn.Write` failed, and which of the
  three `select` cases fired (`resolved` / `timeout` / `shutdown`).
  `EnvValid` constrains `OpEnv` by Go semantics: a `Write` on a closed
  `net.Conn` returns `net.ErrClosed`, and a `select` whose `done` case is
  already closed never takes the 5-second `time.After` timer (the timer
  channel is not ready at entry while `done` is), and the fresh buffered
  response channel is never fed once the receiver has stopped.
-/

namespace Ghoti

/-- A Go `error` value as produced by this client: either a `fmt.Errorf`
result carrying its formatted message, or a structured `*model.GhotiError`
carrying code and message. -/
inductive GoError where
  | errorf (msg : String)
  | ghotiError (code message : String)
deriving Repr, DecidableEq

/-- Model of the `Response` struct sent over a pending request's channel:
`Data string; Error error`. -/
structure Response where
  Data : String
  Error : Option GoError
deriving Repr, DecidableEq

/-- The fixed message table of `model.NewGhotiError` (the Go `switch`
is a sequential chain of string equality tests). -/
def errorMessage (code : String) : String :=
  if code = "001" then "Invalid command"
  else if code = "002" then "Invalid slot number"
  else if code = "003" then "Invalid data length"
  else if code = "004" then "Authentication required"
  else if code = "005" then "Invalid credentials"
  else if code = "006" then "Permission denied"
  else if code = "007" then "Slot locked"
  else if code = "008" then "No tokens available"
  else if code = "009" then "Internal server error"
  else "Unknown error"

/-- Model of `model.NewGhotiError(code)`: structured error with the fixed message. -/
def NewGhotiError (code : String) : GoError :=
  GoError.ghotiError code (errorMessage code)

/-- UTF-8 byte width of one character (what Go `len` counts per rune). -/
def charUtf8Size (ch : Char) : Nat :=
  if ch.toNat < 128 then 1
  else if ch.toNat < 2048 then 2
  else if ch.toNat < 65536 then 3
  else 4

/-- Go `len(s)` for a string: number of UTF-8 bytes. -/
def goLen (s : String) : Nat :=
  (s.data.map charUtf8Size).sum

/-- Digit-run accumulator of `strconv.Atoi`: fails on any non-digit. -/
def parseDigitsAux : List Char → Nat → Option Nat
  | [], acc => some acc
  | ch :: cs, acc =>
    if ch.isDigit then parseDigitsAux cs (10 * acc + (ch.toNat - 48)) else none

/-- Model of Go `strconv.Atoi`: optional single sign, then a non-empty
run of decimal digits; anything else is an error (`none`).  Values that
do not fit a 64-bit `int` yield `strconv.ErrRange`, hence `none`. -/
def Atoi (s : String) : Option Int :=
  match s.data with
  | [] => none
  | '-' :: rest =>
    if rest.isEmpty then none
    else
      match parseDigitsAux rest 0 with
      | some n => if n ≤ 2 ^ 63 then some (-(n : Int)) else none
      | none => none
  | '+' :: rest =>
    if rest.isEmpty then none
    else
      match parseDigitsAux rest 0 with
      | some n => if n < 2 ^ 63 then some ((n : Int)) else none
      | none => none
  | cs =>
    match parseDigitsAux cs 0 with
    | some n => if n < 2 ^ 63 then some ((n : Int)) else none
    | none => none

/-- Go `strings.Split(s, "/")` on the character list of `s` (the
separator is the single character `/`; empty fields are kept). -/
def splitSlash : List Char → List (List Char)
  | [] => [[]]
  | ch :: rest =>
    if ch = '/' then [] :: splitSlash rest
    else
      match splitSlash rest with
      | [] => [[ch]]
      | p :: ps => (ch :: p) :: ps

/-- The mutable state of the Go `Client` struct, plus ghost observation
fields.

* `authUser` — `c.config.Auth().User()`.
* `pendingRequests` — the key set of the `map[int]chan Response`
  (at most one channel per slot; the channel identity is irrelevant to
  the claims, delivery is recorded per slot).
* `broadcastHandlerSet` — whether `c.broadcastHandler` is non-nil.
* `doneClosed` — whether `close(c.done)` has executed.
* `connClosed` — whether `c.conn.Close()` has executed.
* `deliveries` — ghost: every `ch <- Response{...}` performed, as
  (slot of the receiving channel, response).
* `logs` — ghost: every `fmt.Printf` line.
* `broadcastCalls` — ghost: every invocation of the broadcast handler. -/
structure ClientState where
  authUser : String := ""
  pendingRequests : List Int := []
  broadcastHandlerSet : Bool := false
  doneClosed : Bool := false
  connClosed : Bool := false
  deliveries : List (Int × Response) := []
  logs : List String := []
  broadcastCalls : List (Int × String) := []
deriving Repr, DecidableEq

/-- Model of `handleFatalError`: prints the error and calls `c.Close()`.  Since
every call site is inside the listener goroutine, `close(c.done)`
executes but `c.wg.Wait()` never returns (it waits on the listener's own
deferred `wg.Done()`), so `c.conn.Close()` is never reached: only the
done channel gets closed. -/
def handleFatalError (c : ClientState) (msg : String) : ClientState :=
  { c with
    logs := c.logs ++ ["Fatal client error: " ++ msg]
    doneClosed := true }

/-- Model of `Close` as observed by a caller thread after it has completed:
`close(c.done)`, join of the receiver, then `c.conn.Close()`. -/
def Close (c : ClientState) : ClientState :=
  { c with doneClosed := true, connClosed := true }

/-- Model of `handleValueResponse`: auth-echo special case (`message[1:]` equal to
the configured username), framing check, 3-digit slot parse, then either
delivery to the pending channel or escalation via `handleFatalError`. -/
def handleValueResponse (c : ClientState) (message : String) : ClientState :=
  if message.data.length > 1 ∧ String.mk (message.data.drop 1) = c.authUser then
    c
  else if message.data.length < 4 then
    handleFatalError c ("invalid value response format: " ++ message)
  else
    let slotStr := String.mk ((message.data.drop 1).take 3)
    match Atoi slotStr with
    | none => handleFatalError c ("invalid slot number in response: " ++ slotStr)
    | some slot =>
      let data := String.mk (message.data.drop 4)
      if slot ∈ c.pendingRequests then
        { c with deliveries := c.deliveries ++ [(slot, ⟨data, none⟩)] }
      else
        handleFatalError c
          ("received response for slot " ++ toString slot ++ " with no pending request")

/-- Model of `handleErrorResponse`: framing check, extract `message[1:4]`;
codes 004/005 are logged only; any other code is broadcast to every
pending request (each channel receives the same structured error) and
the map is emptied by the `delete` in the loop. -/
def handleErrorResponse (c : ClientState) (message : String) : ClientState :=
  if message.data.length < 4 then
    handleFatalError c ("invalid error response format: " ++ message)
  else
    let errorCode := String.mk ((message.data.drop 1).take 3)
    if errorCode = "004" ∨ errorCode = "005" then
      { c with logs := c.logs ++ ["Authentication error: " ++ errorCode] }
    else
      { c with
        pendingRequests := []
        deliveries := c.deliveries ++
          c.pendingRequests.map (fun s => (s, ⟨"", some (NewGhotiError errorCode)⟩)) }

/-- Model of `handleBroadcastMessage`: framing check, 3-digit slot parse, then the
handler (if set) is invoked with (slot, data). -/
def handleBroadcastMessage (c : ClientState) (message : String) : ClientState :=
  if message.data.length < 4 then
    handleFatalError c ("invalid broadcast message format: " ++ message)
  else
    let slotStr := String.mk ((message.data.drop 1).take 3)
    match Atoi slotStr with
    | none => handleFatalError c ("invalid slot number in broadcast: " ++ slotStr)
    | some slot =>
      let data := String.mk (message.data.drop 4)
      if c.broadcastHandlerSet then
        { c with broadcastCalls := c.broadcastCalls ++ [(slot, data)] }
      else c

/-- Model of `processMessage`: dispatch on the leading type tag `message[0]`. -/
def processMessage (c : ClientState) (message : String) : ClientState :=
  match message.data with
  | [] => c
  | t :: _ =>
    if t = 'v' then handleValueResponse c message
    else if t = 'e' then handleErrorResponse c message
    else if t = 'a' then handleBroadcastMessage c message
    else handleFatalError c ("unknown message type: " ++ String.mk [t])

/-- Which of the three `select` cases of a blocking operation fired:
the buffered response channel (`resolved`), the 5-second `time.After`
timer (`timeout`), or the closed `done` channel (`shutdown`).  The Go
`select` in `Read`, `Write` and `Broadcast` races exactly these three
events. -/
inductive WaitOutcome where
  | resolved (r : Response)
  | timeout
  | shutdown
deriving Repr, DecidableEq

/-- The external events of one blocking operation: the result of the
`c.conn.Write` (`some msg` when it returned an error) and the `select`
case that fired. -/
structure OpEnv where
  sendError : Option String := none
  outcome : WaitOutcome
deriving Repr, DecidableEq

/-- The message of `net.ErrClosed`, which every `Write` on a
`net.Conn` that has been `Close`d returns. -/
def errClosed : String := "use of closed network connection"

/-- Constraints Go semantics place on the events of one operation:

* if the connection has been closed, `conn.Write` fails with
  `net.ErrClosed`;
* if `close(c.done)` has executed before the `select` starts, the
  `<-c.done` case is ready immediately, the 5-second timer is not, and
  the freshly created buffered response channel is never sent to once the
  receiver has stopped dispatching — so the `select` takes the shutdown
  case, never the timer. -/
def EnvValid (c : ClientState) (env : OpEnv) : Prop :=
  (c.connClosed = true → env.sendError = some errClosed) ∧
  (c.doneClosed = true → env.outcome = WaitOutcome.shutdown)

/-- Model of `fmt.Sprintf("%03d", slot)` for `0 ≤ slot ≤ 999`. -/
def pad3 (slot : Int) : String :=
  String.mk
    [Char.ofNat (48 + (slot.toNat / 100) % 10),
     Char.ofNat (48 + (slot.toNat / 10) % 10),
     Char.ofNat (48 + slot.toNat % 10)]

/-- The error every operation returns when the timer case fires. -/
def timeoutError : GoError := GoError.errorf "timeout waiting for response"

/-- The error every operation returns when the shutdown case fires. -/
def closedError : GoError := GoError.errorf "client closed"

/-- Result of one facade operation: the Go return value, the client
state when the call returns (after the deferred `delete`), and the
frames handed to `conn.Write`. -/
structure OpOutput (α : Type) where
  result : Except GoError α
  state : ClientState
  sent : List String
deriving Repr

/-- Model of `c.pendingRequests[slot] = responseCh`: key-set effect of the map
assignment. -/
def registerPending (c : ClientState) (slot : Int) : ClientState :=
  { c with
    pendingRequests :=
      if slot ∈ c.pendingRequests then c.pendingRequests else slot :: c.pendingRequests }

/-- Model of `delete(c.pendingRequests, slot)`: the deferred cleanup. -/
def removePending (c : ClientState) (slot : Int) : ClientState :=
  { c with pendingRequests := c.pendingRequests.filter (fun s => s != slot) }

/-- Model of `Client.Read`: slot validation, registration, `r%03d\n` send (the
deferred `delete` runs on every later return path), then the three-way
`select`. -/
def Read (c : ClientState) (slot : Int) (env : OpEnv) : OpOutput String :=
  if slot < 0 ∨ slot > 999 then
    ⟨Except.error (GoError.errorf ("invalid slot number: " ++ toString slot)), c, []⟩
  else
    let c1 := registerPending c slot
    let cmd := "r" ++ pad3 slot ++ "\n"
    let cOut := removePending c1 slot
    match env.sendError with
    | some e =>
      ⟨Except.error (GoError.errorf ("failed to send read command: " ++ e)), cOut, [cmd]⟩
    | none =>
      match env.outcome with
      | WaitOutcome.resolved r =>
        match r.Error with
        | some e => ⟨Except.error e, cOut, [cmd]⟩
        | none => ⟨Except.ok r.Data, cOut, [cmd]⟩
      | WaitOutcome.timeout => ⟨Except.error timeoutError, cOut, [cmd]⟩
      | WaitOutcome.shutdown => ⟨Except.error closedError, cOut, [cmd]⟩

/-- Model of `Client.Write`: slot and length validation, registration,
`w%03d%s\n` send, then the three-way `select`; returns
`response.Error` directly on resolution. -/
def Write (c : ClientState) (slot : Int) (data : String) (env : OpEnv) : OpOutput Unit :=
  if slot < 0 ∨ slot > 999 then
    ⟨Except.error (GoError.errorf ("invalid slot number: " ++ toString slot)), c, []⟩
  else if goLen data > 36 then
    ⟨Except.error (GoError.errorf "data too long: maximum length is 36 characters"), c, []⟩
  else
    let c1 := registerPending c slot
    let cmd := "w" ++ pad3 slot ++ data ++ "\n"
    let cOut := removePending c1 slot
    match env.sendError with
    | some e =>
      ⟨Except.error (GoError.errorf ("failed to send write command: " ++ e)), cOut, [cmd]⟩
    | none =>
      match env.outcome with
      | WaitOutcome.resolved r =>
        match r.Error with
        | some e => ⟨Except.error e, cOut, [cmd]⟩
        | none => ⟨Except.ok (), cOut, [cmd]⟩
      | WaitOutcome.timeout => ⟨Except.error timeoutError, cOut, [cmd]⟩
      | WaitOutcome.shutdown => ⟨Except.error closedError, cOut, [cmd]⟩

/-- Model of `Client.Broadcast`: same validation and transmission as `Write`
(broadcast uses the write command), but the resolved payload is parsed
as a slash-delimited triple with `strings.Split` and `strconv.Atoi`. -/
def Broadcast (c : ClientState) (slot : Int) (data : String) (env : OpEnv) :
    OpOutput (Int × Int × Int) :=
  if slot < 0 ∨ slot > 999 then
    ⟨Except.error (GoError.errorf ("invalid slot number: " ++ toString slot)), c, []⟩
  else if goLen data > 36 then
    ⟨Except.error (GoError.errorf "data too long: maximum length is 36 characters"), c, []⟩
  else
    let c1 := registerPending c slot
    let cmd := "w" ++ pad3 slot ++ data ++ "\n"
    let cOut := removePending c1 slot
    match env.sendError with
    | some e =>
      ⟨Except.error (GoError.errorf ("failed to send broadcast command: " ++ e)), cOut, [cmd]⟩
    | none =>
      match env.outcome with
      | WaitOutcome.resolved r =>
        match r.Error with
        | some e => ⟨Except.error e, cOut, [cmd]⟩
        | none =>
          match (splitSlash r.Data.data).map String.mk with
          | [p1, p2, p3] =>
            match Atoi p1 with
            | none =>
              ⟨Except.error (GoError.errorf ("invalid received count: " ++ p1)), cOut, [cmd]⟩
            | some received =>
              match Atoi p2 with
              | none =>
                ⟨Except.error (GoError.errorf ("invalid total count: " ++ p2)), cOut, [cmd]⟩
              | some total =>
                match Atoi p3 with
                | none =>
                  ⟨Except.error (GoError.errorf ("invalid failed count: " ++ p3)), cOut, [cmd]⟩
                | some failed => ⟨Except.ok (received, total, failed), cOut, [cmd]⟩
          | _ =>
            ⟨Except.error (GoError.errorf ("invalid broadcast response format: " ++ r.Data)),
             cOut, [cmd]⟩
      | WaitOutcome.timeout => ⟨Except.error timeoutError, cOut, [cmd]⟩
      | WaitOutcome.shutdown => ⟨Except.error closedError, cOut, [cmd]⟩

/-! ## Helper lemmas -/

theorem not_mem_removePending (c : ClientState) (slot : Int) :
    slot ∉ (removePending c slot).pendingRequests := by
  simp [removePending, List.mem_filter]

theorem Read_state (c : ClientState) (slot : Int) (env : OpEnv)
    (hs : ¬(slot < 0 ∨ slot > 999)) :
    (Read c slot env).state = removePending (registerPending c slot) slot := by
  unfold Read
  rw [if_neg hs]
  obtain ⟨se, oc⟩ := env
  cases se
  · cases oc with
    | resolved r =>
      obtain ⟨d, re⟩ := r
      cases re <;> rfl
    | timeout => rfl
    | shutdown => rfl
  · rfl

theorem Write_state (c : ClientState) (slot : Int) (data : String) (env : OpEnv)
    (hs : ¬(slot < 0 ∨ slot > 999)) (hd : ¬goLen data > 36) :
    (Write c slot data env).state = removePending (registerPending c slot) slot := by
  unfold Write
  rw [if_neg hs, if_neg hd]
  obtain ⟨se, oc⟩ := env
  cases se
  · cases oc with
    | resolved r =>
      obtain ⟨d, re⟩ := r
      cases re <;> rfl
    | timeout => rfl
    | shutdown => rfl
  · rfl

theorem Broadcast_state (c : ClientState) (slot : Int) (data : String) (env : OpEnv)
    (hs : ¬(slot < 0 ∨ slot > 999)) (hd : ¬goLen data > 36) :
    (Broadcast c slot data env).state = removePending (registerPending c slot) slot := by
  unfold Broadcast
  rw [if_neg hs, if_neg hd]
  obtain ⟨se, oc⟩ := env
  cases se
  · cases oc with
    | resolved r =>
      obtain ⟨d, re⟩ := r
      cases re
      · dsimp only
        repeat' split
        all_goals rfl
      · rfl
    | timeout => rfl
    | shutdown => rfl
  · rfl

/-! ## Claims -/

/-- Claim C5: for every slot out of [0, 999], `Read`, `Write` and
`Broadcast` return the slot-validation error, send no frame and register
nothing (the state is untouched); for every data value longer than 36
bytes, `Write` and `Broadcast` return a validation error (the
length error, or the slot error when the slot is also invalid — the slot
check comes first), again sending no frame and registering nothing. -/
theorem claim_C5 (c : ClientState) (slot : Int) (data : String) (env : OpEnv) :
    ((slot < 0 ∨ slot > 999) →
      Read c slot env =
        ⟨Except.error (GoError.errorf ("invalid slot number: " ++ toString slot)), c, []⟩ ∧
      Write c slot data env =
        ⟨Except.error (GoError.errorf ("invalid slot number: " ++ toString slot)), c, []⟩ ∧
      Broadcast c slot data env =
        ⟨Except.error (GoError.errorf ("invalid slot number: " ++ toString slot)), c, []⟩) ∧
    (goLen data > 36 →
      ∃ e, (e = GoError.errorf ("invalid slot number: " ++ toString slot) ∨
            e = GoError.errorf "data too long: maximum length is 36 characters") ∧
        Write c slot data env = ⟨Except.error e, c, []⟩ ∧
        Broadcast c slot data env = ⟨Except.error e, c, []⟩) := by
  constructor
  · intro h
    refine ⟨?_, ?_, ?_⟩
    · unfold Read; rw [if_pos h]
    · unfold Write; rw [if_pos h]
    · unfold Broadcast; rw [if_pos h]
  · intro h
    by_cases hslot : slot < 0 ∨ slot > 999
    · refine ⟨_, Or.inl rfl, ?_, ?_⟩
      · unfold Write; rw [if_pos hslot]
      · unfold Broadcast; rw [if_pos hslot]
    · refine ⟨_, Or.inr rfl, ?_, ?_⟩
      · unfold Write; rw [if_neg hslot, if_pos h]
      · unfold Broadcast; rw [if_neg hslot, if_pos h]

/-- Claim C5 witness: slot 1000 is rejected with the slot-validation
error; a 37-byte payload is rejected with the length-validation error;
in both cases no frame is sent and the state (hence the registry) is
unchanged. -/
theorem claim_C5_witness :
    ((1000 : Int) < 0 ∨ (1000 : Int) > 999) ∧
    goLen "aaaaaaaaaaaaaaaaaaaaaaaaaaaaaaaaaaaaa" > 36 ∧
    (Read { } 1000 { outcome := WaitOutcome.timeout } =
      ⟨Except.error (GoError.errorf ("invalid slot number: " ++ toString (1000 : Int))),
       { }, []⟩ ∧
     Write { } 1000 "" { outcome := WaitOutcome.timeout } =
      ⟨Except.error (GoError.errorf ("invalid slot number: " ++ toString (1000 : Int))),
       { }, []⟩ ∧
     Broadcast { } 1000 "" { outcome := WaitOutcome.timeout } =
      ⟨Except.error (GoError.errorf ("invalid slot number: " ++ toString (1000 : Int))),
       { }, []⟩) ∧
    (∃ e, (e = GoError.errorf ("invalid slot number: " ++ toString (1 : Int)) ∨
           e = GoError.errorf "data too long: maximum length is 36 characters") ∧
      Write { } 1 "aaaaaaaaaaaaaaaaaaaaaaaaaaaaaaaaaaaaa" { outcome := WaitOutcome.timeout } =
        ⟨Except.error e, { }, []⟩ ∧
      Broadcast { } 1 "aaaaaaaaaaaaaaaaaaaaaaaaaaaaaaaaaaaaa" { outcome := WaitOutcome.timeout } =
        ⟨Except.error e, { }, []⟩) :=
  ⟨by decide, by decide,
   (claim_C5 { } 1000 "" { outcome := WaitOutcome.timeout }).1 (by decide),
   (claim_C5 { } 1 "aaaaaaaaaaaaaaaaaaaaaaaaaaaaaaaaaaaaa"
      { outcome := WaitOutcome.timeout }).2 (by decide)⟩

/-- Claim C3: with valid arguments, each of `Read`, `Write`, `Broadcast`
waits on a `select` with exactly the three `WaitOutcome` cases
(resolution / 5-second timer / shutdown); on every exit path — send
failure, success, error resolution, timeout, shutdown — the slot is no
longer registered when the call returns; and the timeout error is
distinct both from every structured `GhotiError` and from the
closed-client error, so a caller can tell the three apart. -/
theorem claim_C3 (c : ClientState) (slot : Int) (data : String) (env : OpEnv)
    (hs : ¬(slot < 0 ∨ slot > 999)) (hd : ¬goLen data > 36) :
    (slot ∉ (Read c slot env).state.pendingRequests ∧
     slot ∉ (Write c slot data env).state.pendingRequests ∧
     slot ∉ (Broadcast c slot data env).state.pendingRequests) ∧
    (env.sendError = none →
      ((env.outcome = WaitOutcome.timeout →
          (Read c slot env).result = Except.error timeoutError ∧
          (Write c slot data env).result = Except.error timeoutError ∧
          (Broadcast c slot data env).result = Except.error timeoutError) ∧
       (env.outcome = WaitOutcome.shutdown →
          (Read c slot env).result = Except.error closedError ∧
          (Write c slot data env).result = Except.error closedError ∧
          (Broadcast c slot data env).result = Except.error closedError) ∧
       (∀ r, env.outcome = WaitOutcome.resolved r → r.Error = none →
          (Read c slot env).result = Except.ok r.Data) ∧
       (∀ r e, env.outcome = WaitOutcome.resolved r → r.Error = some e →
          (Read c slot env).result = Except.error e ∧
          (Write c slot data env).result = Except.error e))) ∧
    (timeoutError ≠ closedError ∧
     (∀ code, timeoutError ≠ NewGhotiError code) ∧
     (∀ code, closedError ≠ NewGhotiError code)) := by
  refine ⟨?_, ?_, ?_⟩
  · rw [Read_state c slot env hs, Write_state c slot data env hs hd,
        Broadcast_state c slot data env hs hd]
    exact ⟨not_mem_removePending _ _, not_mem_removePending _ _, not_mem_removePending _ _⟩
  · intro hse
    refine ⟨?_, ?_, ?_, ?_⟩
    · intro hoc
      refine ⟨?_, ?_, ?_⟩
      · unfold Read; rw [if_neg hs, hse, hoc]
      · unfold Write; rw [if_neg hs, if_neg hd, hse, hoc]
      · unfold Broadcast; rw [if_neg hs, if_neg hd, hse, hoc]
    · intro hoc
      refine ⟨?_, ?_, ?_⟩
      · unfold Read; rw [if_neg hs, hse, hoc]
      · unfold Write; rw [if_neg hs, if_neg hd, hse, hoc]
      · unfold Broadcast; rw [if_neg hs, if_neg hd, hse, hoc]
    · intro r hoc hre
      unfold Read; rw [if_neg hs, hse, hoc]; dsimp only; rw [hre]
    · intro r e hoc hre
      constructor
      · unfold Read; rw [if_neg hs, hse, hoc]; dsimp only; rw [hre]
      · unfold Write; rw [if_neg hs, if_neg hd, hse, hoc]; dsimp only; rw [hre]
  · refine ⟨by decide, ?_, ?_⟩
    · intro code
      simp [timeoutError, NewGhotiError]
    · intro code
      simp [closedError, NewGhotiError]

/-- Claim C3 witness: for a valid read on slot 7, the timeout outcome
yields the timeout error and the slot is deregistered on return. -/
theorem claim_C3_witness :
    ¬((7 : Int) < 0 ∨ (7 : Int) > 999) ∧
    ¬goLen "hi" > 36 ∧
    ((7 : Int) ∉ (Read { } 7 { outcome := WaitOutcome.timeout }).state.pendingRequests ∧
     (7 : Int) ∉ (Write { } 7 "hi" { outcome := WaitOutcome.timeout }).state.pendingRequests ∧
     (7 : Int) ∉ (Broadcast { } 7 "hi" { outcome := WaitOutcome.timeout }).state.pendingRequests) :=
  ⟨by decide, by decide,
   (claim_C3 { } 7 "hi" { outcome := WaitOutcome.timeout } (by decide) (by decide)).1⟩

/-- Claim C4: once `Close()` has completed (`done` closed, receiver
joined, transport closed), any `Read`, `Write` or `Broadcast` with valid
arguments fails at the `conn.Write` with an error wrapping
`net.ErrClosed` — a "closed" condition — and in particular never returns
the 5-second timeout error: under `EnvValid` the `select` could only
ever take the already-ready shutdown case, never the timer. -/
theorem claim_C4 (c : ClientState) (slot : Int) (data : String) (env : OpEnv)
    (hs : ¬(slot < 0 ∨ slot > 999)) (hd : ¬goLen data > 36)
    (hE : EnvValid (Close c) env) :
    (Read (Close c) slot env).result =
      Except.error (GoError.errorf ("failed to send read command: " ++ errClosed)) ∧
    (Write (Close c) slot data env).result =
      Except.error (GoError.errorf ("failed to send write command: " ++ errClosed)) ∧
    (Broadcast (Close c) slot data env).result =
      Except.error (GoError.errorf ("failed to send broadcast command: " ++ errClosed)) ∧
    (Read (Close c) slot env).result ≠ Except.error timeoutError ∧
    (Write (Close c) slot data env).result ≠ Except.error timeoutError ∧
    (Broadcast (Close c) slot data env).result ≠ Except.error timeoutError := by
  have hse : env.sendError = some errClosed := hE.1 rfl
  have hr : (Read (Close c) slot env).result =
      Except.error (GoError.errorf ("failed to send read command: " ++ errClosed)) := by
    unfold Read; rw [if_neg hs, hse]
  have hw : (Write (Close c) slot data env).result =
      Except.error (GoError.errorf ("failed to send write command: " ++ errClosed)) := by
    unfold Write; rw [if_neg hs, if_neg hd, hse]
  have hb : (Broadcast (Close c) slot data env).result =
      Except.error (GoError.errorf ("failed to send broadcast command: " ++ errClosed)) := by
    unfold Broadcast; rw [if_neg hs, if_neg hd, hse]
  refine ⟨hr, hw, hb, ?_, ?_, ?_⟩
  · rw [hr]; intro h; injection h with h'; exact absurd h' (by decide)
  · rw [hw]; intro h; injection h with h'; exact absurd h' (by decide)
  · rw [hb]; intro h; injection h with h'; exact absurd h' (by decide)

/-- Claim C1 (as amended): when the dispatcher handles a value frame
`v` + 3-digit slot + payload (that is not the auth echo), the payload is
delivered to the slot's pending waiter as success; but when the slot has
no pending request the frame is **not** a non-fatal anomaly: it is
escalated through `handleFatalError`, which reports it and closes the
done channel — the same severity as an unknown tag. -/
theorem claim_C1 (c : ClientState) (message slotStr payload : String) (slot : Int)
    (hm : message.data = 'v' :: (slotStr.data ++ payload.data))
    (h3 : slotStr.data.length = 3)
    (hA : Atoi slotStr = some slot)
    (hne : String.mk (slotStr.data ++ payload.data) ≠ c.authUser) :
    (slot ∈ c.pendingRequests →
      processMessage c message =
        { c with deliveries := c.deliveries ++ [(slot, ⟨payload, none⟩)] }) ∧
    (slot ∉ c.pendingRequests →
      processMessage c message =
        { c with
          logs := c.logs ++
            ["Fatal client error: received response for slot " ++ toString slot ++
             " with no pending request"]
          doneClosed := true }) := by
  have hdrop1 : message.data.drop 1 = slotStr.data ++ payload.data := by
    rw [hm]
    rfl
  have hguard1 : ¬(message.data.length > 1 ∧
      String.mk (message.data.drop 1) = c.authUser) := by
    rintro ⟨-, h2⟩
    rw [hdrop1] at h2
    exact hne h2
  have hlen4 : ¬message.data.length < 4 := by
    rw [hm]
    simp [List.length_append, h3]
  have hslotStr : String.mk ((message.data.drop 1).take 3) = slotStr := by
    rw [hdrop1, ← h3, List.take_left]
  have hdata : String.mk (message.data.drop 4) = payload := by
    rw [hm]
    show String.mk ((slotStr.data ++ payload.data).drop 3) = payload
    rw [← h3, List.drop_left]
  have hpm : processMessage c message = handleValueResponse c message := by
    unfold processMessage
    rw [hm]
    rfl
  have hval : handleValueResponse c message =
      if slot ∈ c.pendingRequests then
        { c with deliveries := c.deliveries ++ [(slot, ⟨payload, none⟩)] }
      else
        handleFatalError c
          ("received response for slot " ++ toString slot ++ " with no pending request") := by
    unfold handleValueResponse
    rw [if_neg hguard1, if_neg hlen4]
    dsimp only
    rw [hslotStr, hA]
    dsimp only
    rw [hdata]
  constructor
  · intro h
    rw [hpm, hval, if_pos h]
  · intro h
    rw [hpm, hval, if_neg h]
    rfl

/-- Claim C1 counterexample: the claim as stated says an unrouted value
frame leaves the client running, with the done channel not closed by
this case.  On the code, dispatching `v000abc` to a client with no
pending request closes the done channel and logs a *fatal* client
error. -/
theorem claim_C1_counterexample :
    (processMessage { authUser := "user" } "v000abc").doneClosed = true ∧
    (processMessage { authUser := "user" } "v000abc").logs =
      ["Fatal client error: received response for slot 0 with no pending request"] :=
  ⟨rfl, rfl⟩

/-- Claim C1 witness: with a pending request on slot 0, the frame
`v000abc` delivers payload `abc` to it as success. -/
theorem claim_C1_witness :
    Atoi "000" = some 0 ∧
    processMessage { authUser := "user", pendingRequests := [0] } "v000abc" =
      { authUser := "user", pendingRequests := [0], deliveries := [(0, ⟨"abc", none⟩)] } :=
  ⟨by decide, by
    exact (claim_C1 { authUser := "user", pendingRequests := [0] } "v000abc" "000" "abc" 0
      (by decide) (by decide) (by decide) (by decide)).1 (by decide)⟩

/-- Claim C2: an error frame `e` + 3-character code: codes `004`/`005`
are logged only, with the pending-request map (and deliveries) left
unchanged; any other code is broadcast to every currently pending
request — each one receives the same structured error built by
`NewGhotiError` — and the map is left empty. -/
theorem claim_C2 (c : ClientState) (code : String) (h3 : code.data.length = 3) :
    ((code = "004" ∨ code = "005") →
      processMessage c ("e" ++ code) =
        { c with logs := c.logs ++ ["Authentication error: " ++ code] }) ∧
    (code ≠ "004" → code ≠ "005" →
      processMessage c ("e" ++ code) =
        { c with
          pendingRequests := []
          deliveries := c.deliveries ++
            c.pendingRequests.map (fun t => (t, ⟨"", some (NewGhotiError code)⟩)) } ∧
      (∀ s ∈ c.pendingRequests,
        (s, (⟨"", some (NewGhotiError code)⟩ : Response)) ∈
          (processMessage c ("e" ++ code)).deliveries)) := by
  have hdata : ("e" ++ code).data = 'e' :: code.data := by
    rw [String.data_append]
    rfl
  have hpm : processMessage c ("e" ++ code) = handleErrorResponse c ("e" ++ code) := by
    unfold processMessage
    rw [hdata]
    rfl
  have hlen : ¬("e" ++ code).data.length < 4 := by
    rw [hdata]
    simp [h3]
  have hcode : String.mk ((("e" ++ code).data.drop 1).take 3) = code := by
    rw [hdata]
    show String.mk (code.data.take 3) = code
    rw [← h3, List.take_length]
  have herr : handleErrorResponse c ("e" ++ code) =
      if code = "004" ∨ code = "005" then
        { c with logs := c.logs ++ ["Authentication error: " ++ code] }
      else
        { c with
          pendingRequests := []
          deliveries := c.deliveries ++
            c.pendingRequests.map (fun t => (t, ⟨"", some (NewGhotiError code)⟩)) } := by
    unfold handleErrorResponse
    rw [if_neg hlen]
    dsimp only
    rw [hcode]
  constructor
  · intro h
    rw [hpm, herr, if_pos h]
  · intro h4 h5
    have hno : ¬(code = "004" ∨ code = "005") := not_or.mpr ⟨h4, h5⟩
    have heq : processMessage c ("e" ++ code) =
        { c with
          pendingRequests := []
          deliveries := c.deliveries ++
            c.pendingRequests.map (fun t => (t, ⟨"", some (NewGhotiError code)⟩)) } := by
      rw [hpm, herr, if_neg hno]
    refine ⟨heq, ?_⟩
    intro s hsmem
    rw [heq]
    exact List.mem_append_right _ (List.mem_map_of_mem _ hsmem)

/-- Claim C2 witness: `e007` against a client with slot 5 pending resolves
that request with the structured error and empties the map, while `e004`
is logged only and leaves the map unchanged. -/
theorem claim_C2_witness :
    processMessage { authUser := "u", pendingRequests := [5] } ("e" ++ "007") =
      { authUser := "u", pendingRequests := [],
        deliveries := [(5, ⟨"", some (GoError.ghotiError "007" "Slot locked")⟩)] } ∧
    processMessage { authUser := "u", pendingRequests := [5] } ("e" ++ "004") =
      { authUser := "u", pendingRequests := [5], logs := ["Authentication error: 004"] } :=
  ⟨by
    exact ((claim_C2 { authUser := "u", pendingRequests := [5] } "007"
      (by decide)).2 (by decide) (by decide)).1,
   by
    exact (claim_C2 { authUser := "u", pendingRequests := [5] } "004"
      (by decide)).1 (Or.inl rfl)⟩

/-- Claim C6: a value frame whose text after the tag (the auth echo check
runs before the slot is parsed) exactly matches the configured, nonempty
authentication username is discarded silently: the state is returned
unchanged — no delivery, no log, no error, no closing. -/
theorem claim_C6 (c : ClientState) (h : c.authUser.data ≠ []) :
    processMessage c ("v" ++ c.authUser) = c := by
  have hdata : ("v" ++ c.authUser).data = 'v' :: c.authUser.data := by
    rw [String.data_append]
    rfl
  have hpm : processMessage c ("v" ++ c.authUser) =
      handleValueResponse c ("v" ++ c.authUser) := by
    unfold processMessage
    rw [hdata]
    rfl
  have hguard : ("v" ++ c.authUser).data.length > 1 ∧
      String.mk (("v" ++ c.authUser).data.drop 1) = c.authUser := by
    constructor
    · rw [hdata]
      simp only [List.length_cons, gt_iff_lt, Nat.lt_add_one_iff]
      exact List.length_pos.mpr h
    · rw [hdata]
      rfl
  rw [hpm]
  unfold handleValueResponse
  rw [if_pos hguard]

/-- Claim C6 witness: with username `bob`, the frame `vbob` is ignored and
the client state is unchanged. -/
theorem claim_C6_witness :
    ({ authUser := "bob" } : ClientState).authUser.data ≠ [] ∧
    processMessage { authUser := "bob" } ("v" ++ ({ authUser := "bob" } : ClientState).authUser) =
      { authUser := "bob" } :=
  ⟨by decide, claim_C6 { authUser := "bob" } (by decide)⟩

/-- Claim C7: a broadcast whose pending request resolves with payload
`3/5/1` returns `(received, total, failed) = (3, 5, 1)` with no error;
a resolved payload with a field count other than 3 returns the format
parse error (totally — the embedding is a total function, the Go code
returns an error rather than panicking), a non-integer field returns the
corresponding count parse error, and every such `fmt.Errorf` parse error
is distinct from every structured server `GhotiError`. -/
theorem claim_C7 (c : ClientState) (slot : Int) (data : String) (env : OpEnv)
    (hs : ¬(slot < 0 ∨ slot > 999)) (hd : ¬goLen data > 36)
    (hse : env.sendError = none) :
    (env.outcome = WaitOutcome.resolved ⟨"3/5/1", none⟩ →
      (Broadcast c slot data env).result = Except.ok (3, 5, 1)) ∧
    (∀ payload : String, (splitSlash payload.data).length ≠ 3 →
      env.outcome = WaitOutcome.resolved ⟨payload, none⟩ →
      (Broadcast c slot data env).result =
        Except.error (GoError.errorf ("invalid broadcast response format: " ++ payload))) ∧
    (env.outcome = WaitOutcome.resolved ⟨"3/5", none⟩ →
      (Broadcast c slot data env).result =
        Except.error (GoError.errorf "invalid broadcast response format: 3/5")) ∧
    (env.outcome = WaitOutcome.resolved ⟨"x/5/1", none⟩ →
      (Broadcast c slot data env).result =
        Except.error (GoError.errorf "invalid received count: x")) ∧
    (∀ m code gm, GoError.errorf m ≠ GoError.ghotiError code gm) := by
  refine ⟨?_, ?_, ?_, ?_, ?_⟩
  · intro hoc
    unfold Broadcast
    rw [if_neg hs, if_neg hd, hse, hoc]
    rfl
  · intro payload hlen hoc
    unfold Broadcast
    rw [if_neg hs, if_neg hd, hse, hoc]
    dsimp only
    rcases hp : (splitSlash payload.data).map String.mk with
      _ | ⟨p1, _ | ⟨p2, _ | ⟨p3, _ | ⟨p4, ps⟩⟩⟩⟩
    · rfl
    · rfl
    · rfl
    · exfalso
      apply hlen
      have := congrArg List.length hp
      simpa using this
    · rfl
  · intro hoc
    unfold Broadcast
    rw [if_neg hs, if_neg hd, hse, hoc]
    rfl
  · intro hoc
    unfold Broadcast
    rw [if_neg hs, if_neg hd, hse, hoc]
    rfl
  · intro m code gm
    simp

/-- Claim C7 witness: concrete broadcast resolutions on slot 1: `3/5/1`
parses to `(3, 5, 1)`, `3/5` and `x/5/1` produce the two parse
errors. -/
theorem claim_C7_witness :
    (Broadcast { } 1 "x" { outcome := WaitOutcome.resolved ⟨"3/5/1", none⟩ }).result =
      Except.ok (3, 5, 1) ∧
    (Broadcast { } 1 "x" { outcome := WaitOutcome.resolved ⟨"3/5", none⟩ }).result =
      Except.error (GoError.errorf "invalid broadcast response format: 3/5") ∧
    (Broadcast { } 1 "x" { outcome := WaitOutcome.resolved ⟨"x/5/1", none⟩ }).result =
      Except.error (GoError.errorf "invalid received count: x") :=
  ⟨(claim_C7 { } 1 "x" { outcome := WaitOutcome.resolved ⟨"3/5/1", none⟩ }
      (by decide) (by decide) rfl).1 rfl,
   (claim_C7 { } 1 "x" { outcome := WaitOutcome.resolved ⟨"3/5", none⟩ }
      (by decide) (by decide) rfl).2.2.1 rfl,
   (claim_C7 { } 1 "x" { outcome := WaitOutcome.resolved ⟨"x/5/1", none⟩ }
      (by decide) (by decide) rfl).2.2.2.1 rfl⟩

/-- Claim C10: `Broadcast` performs no non-negativity check on the parsed
triple: whenever the three slash-separated fields of the resolved
payload each parse under `strconv.Atoi` (which accepts a leading `-` or
`+`), the parsed integers are returned as-is with no error. -/
theorem claim_C10 (c : ClientState) (slot : Int) (data payload : String)
    (l1 l2 l3 : List Char) (v1 v2 v3 : Int) (env : OpEnv)
    (hs : ¬(slot < 0 ∨ slot > 999)) (hd : ¬goLen data > 36)
    (hse : env.sendError = none)
    (hoc : env.outcome = WaitOutcome.resolved ⟨payload, none⟩)
    (hsplit : splitSlash payload.data = [l1, l2, l3])
    (h1 : Atoi (String.mk l1) = some v1)
    (h2 : Atoi (String.mk l2) = some v2)
    (h3 : Atoi (String.mk l3) = some v3) :
    (Broadcast c slot data env).result = Except.ok (v1, v2, v3) := by
  unfold Broadcast
  rw [if_neg hs, if_neg hd, hse, hoc]
  dsimp only
  rw [hsplit]
  dsimp only [List.map]
  rw [h1]
  dsimp only
  rw [h2]
  dsimp only
  rw [h3]

/-- Claim C10 witness: the resolved payload `-1/5/2` — a negative first
field — is returned as `(-1, 5, 2)` with no error. -/
theorem claim_C10_witness :
    splitSlash "-1/5/2".data = [['-', '1'], ['5'], ['2']] ∧
    Atoi (String.mk ['-', '1']) = some (-1) ∧
    (Broadcast { } 1 "x" { outcome := WaitOutcome.resolved ⟨"-1/5/2", none⟩ }).result =
      Except.ok (-1, 5, 2) :=
  ⟨by decide, by decide,
   claim_C10 { } 1 "x" "-1/5/2" ['-', '1'] ['5'] ['2'] (-1) 5 2
     { outcome := WaitOutcome.resolved ⟨"-1/5/2", none⟩ }
     (by decide) (by decide) rfl rfl (by decide) (by decide) (by decide) (by decide)⟩

/-- Claim C8: the structured error carries exactly the fixed message of
the `NewGhotiError` table for each of the nine known codes and
`Unknown error` for every other code; and an `e007` frame received while
a request is pending resolves that pending request with the error
carrying code `007` and message `Slot locked`, which a read in flight
then returns. -/
theorem claim_C8 :
    (NewGhotiError "001" = GoError.ghotiError "001" "Invalid command" ∧
     NewGhotiError "002" = GoError.ghotiError "002" "Invalid slot number" ∧
     NewGhotiError "003" = GoError.ghotiError "003" "Invalid data length" ∧
     NewGhotiError "004" = GoError.ghotiError "004" "Authentication required" ∧
     NewGhotiError "005" = GoError.ghotiError "005" "Invalid credentials" ∧
     NewGhotiError "006" = GoError.ghotiError "006" "Permission denied" ∧
     NewGhotiError "007" = GoError.ghotiError "007" "Slot locked" ∧
     NewGhotiError "008" = GoError.ghotiError "008" "No tokens available" ∧
     NewGhotiError "009" = GoError.ghotiError "009" "Internal server error") ∧
    (∀ code : String,
      code ∉ (["001", "002", "003", "004", "005", "006", "007", "008", "009"] : List String) →
      NewGhotiError code = GoError.ghotiError code "Unknown error") ∧
    (∀ (c : ClientState) (s : Int), s ∈ c.pendingRequests →
      (s, (⟨"", some (GoError.ghotiError "007" "Slot locked")⟩ : Response)) ∈
        (processMessage c "e007").deliveries ∧
      (processMessage c "e007").pendingRequests = []) ∧
    (∀ (c : ClientState) (slot : Int) (env : OpEnv),
      ¬(slot < 0 ∨ slot > 999) → env.sendError = none →
      env.outcome = WaitOutcome.resolved ⟨"", some (NewGhotiError "007")⟩ →
      (Read c slot env).result = Except.error (GoError.ghotiError "007" "Slot locked")) := by
  refine ⟨⟨rfl, rfl, rfl, rfl, rfl, rfl, rfl, rfl, rfl⟩, ?_, ?_, ?_⟩
  · intro code hc
    simp only [List.mem_cons, List.not_mem_nil, or_false, not_or] at hc
    obtain ⟨h1, h2, h3, h4, h5, h6, h7, h8, h9⟩ := hc
    unfold NewGhotiError errorMessage
    rw [if_neg h1, if_neg h2, if_neg h3, if_neg h4, if_neg h5, if_neg h6, if_neg h7,
        if_neg h8, if_neg h9]
  · intro c s hsmem
    have h : processMessage c "e007" =
        { c with
          pendingRequests := []
          deliveries := c.deliveries ++
            c.pendingRequests.map
              (fun t => (t, ⟨"", some (GoError.ghotiError "007" "Slot locked")⟩)) } := rfl
    rw [h]
    exact ⟨List.mem_append_right _ (List.mem_map_of_mem _ hsmem), rfl⟩
  · intro c slot env hs hse hoc
    unfold Read
    rw [if_neg hs, hse, hoc]
    rfl

/-- Claim C8 witness: an unlisted code maps to `Unknown error`; `e007`
against a client with slot 2 pending delivers the `Slot locked` error
and empties the registry; a read resolving with that error returns
it. -/
theorem claim_C8_witness :
    NewGhotiError "042" = GoError.ghotiError "042" "Unknown error" ∧
    ((2, (⟨"", some (GoError.ghotiError "007" "Slot locked")⟩ : Response)) ∈
        (processMessage { pendingRequests := [2] } "e007").deliveries ∧
      (processMessage { pendingRequests := [2] } "e007").pendingRequests = []) ∧
    (Read { } 1 { outcome := WaitOutcome.resolved ⟨"", some (NewGhotiError "007")⟩ }).result =
      Except.error (GoError.ghotiError "007" "Slot locked") :=
  ⟨claim_C8.2.1 "042" (by decide),
   claim_C8.2.2.1 { pendingRequests := [2] } 2 (by decide),
   claim_C8.2.2.2 { } 1 { outcome := WaitOutcome.resolved ⟨"", some (NewGhotiError "007")⟩ }
     (by decide) rfl rfl⟩

/-- Claim C9 (behaviour at the failing input): a non-empty frame whose
leading character is not `v`, `e` or `a` is fatal — it is reported and
the done channel is closed, and a subsequent read fails immediately with
a closed/connection error instead of hanging.  However, contrary to the
claim, the transport is **not** closed: `handleFatalError` invokes
`Close()` from the listener goroutine, so after `close(c.done)` the
`c.wg.Wait()` inside `Close` waits forever on that very goroutine and
`c.conn.Close()` is never reached — `connClosed` stays `false`. -/
theorem claim_C9 (c : ClientState) (t : Char) (rest : List Char) (message : String)
    (hm : message.data = t :: rest)
    (hv : t ≠ 'v') (he : t ≠ 'e') (ha : t ≠ 'a')
    (hconn : c.connClosed = false)
    (slot : Int) (env : OpEnv) (hs : ¬(slot < 0 ∨ slot > 999)) :
    (processMessage c message).doneClosed = true ∧
    (processMessage c message).connClosed = false ∧
    (processMessage c message).logs =
      c.logs ++ ["Fatal client error: unknown message type: " ++ String.mk [t]] ∧
    (EnvValid (processMessage c message) env →
      ((∃ e, (Read (processMessage c message) slot env).result =
          Except.error (GoError.errorf ("failed to send read command: " ++ e))) ∨
       (Read (processMessage c message) slot env).result = Except.error closedError)) := by
  have hpm : processMessage c message =
      handleFatalError c ("unknown message type: " ++ String.mk [t]) := by
    unfold processMessage
    rw [hm]
    dsimp only
    rw [if_neg hv, if_neg he, if_neg ha]
  refine ⟨by rw [hpm]; rfl, by rw [hpm]; exact hconn, by rw [hpm]; rfl, ?_⟩
  intro hE
  cases hse : env.sendError with
  | some e =>
    left
    exact ⟨e, by unfold Read; rw [if_neg hs, hse]⟩
  | none =>
    right
    have hoc : env.outcome = WaitOutcome.shutdown := hE.2 (by rw [hpm]; rfl)
    unfold Read
    rw [if_neg hs, hse, hoc]

/-- Claim C9 witness: the frame `x123` (unknown tag `x`) closes the done
channel, leaves the transport open, logs the fatal error, and a
subsequent read of slot 1 under the valid environment fails with the
closed-client error. -/
theorem claim_C9_witness :
    "x123".data = 'x' :: "123".data ∧
    ((processMessage { } "x123").doneClosed = true ∧
     (processMessage { } "x123").connClosed = false ∧
     (processMessage { } "x123").logs =
       [] ++ ["Fatal client error: unknown message type: " ++ String.mk ['x']] ∧
     (EnvValid (processMessage { } "x123") { outcome := WaitOutcome.shutdown } →
       ((∃ e, (Read (processMessage { } "x123") 1
            { outcome := WaitOutcome.shutdown }).result =
           Except.error (GoError.errorf ("failed to send read command: " ++ e))) ∨
        (Read (processMessage { } "x123") 1
            { outcome := WaitOutcome.shutdown }).result = Except.error closedError))) :=
  ⟨by decide,
   claim_C9 { } 'x' "123".data "x123" (by decide) (by decide) (by decide) (by decide)
     rfl 1 { outcome := WaitOutcome.shutdown } (by decide)⟩

/-- Claim C4 witness: after `Close`, a read of slot 3 with the
semantically valid environment (send fails with `net.ErrClosed`, the
`select` takes the shutdown case) returns the wrapped closed-connection
error and not the timeout error. -/
theorem claim_C4_witness :
    ¬((3 : Int) < 0 ∨ (3 : Int) > 999) ∧
    ¬goLen "d" > 36 ∧
    EnvValid (Close { }) { sendError := some errClosed, outcome := WaitOutcome.shutdown } ∧
    ((Read (Close { }) 3
        { sendError := some errClosed, outcome := WaitOutcome.shutdown }).result =
      Except.error (GoError.errorf ("failed to send read command: " ++ errClosed)) ∧
     (Read (Close { }) 3
        { sendError := some errClosed, outcome := WaitOutcome.shutdown }).result ≠
      Except.error timeoutError) :=
  ⟨by decide, by decide, ⟨fun _ => rfl, fun _ => rfl⟩, by
    have h := claim_C4 { } 3 "d"
      { sendError := some errClosed, outcome := WaitOutcome.shutdown }
      (by decide) (by decide) ⟨fun _ => rfl, fun _ => rfl⟩
    exact ⟨h.1, h.2.2.2.1⟩⟩

end Ghoti
